import Mathlib

/-!
# Perfect forwarding (`src/main.cpp`)

A shallow embedding of the forwarding mechanism of `src/main.cpp`:
reference collapsing, the special deduction rule of a `T&&` parameter,
the two overloads of `my_forward`, the wrappers `w5` and `w6`, the sink `f`
and the driver `main`.

Value categories are kept at the granularity the program talks about:
an expression is either an lvalue (named, persistent) or an rvalue
(temporary, disposable).  References are addresses paired with the category
of the expression that denotes them; the program state is the automatic
storage together with the text written to standard output.
-/

namespace PerfectForwarding

/-! ## Types, reference markers, value categories -/

/-- Value category of an expression: `persistent` is an lvalue,
`disposable` is an rvalue. -/
inductive Cat where
  | persistent
  | disposable
  deriving DecidableEq, Repr

/-- The two reference markers: `lref` is `&`, `rref` is `&&`. -/
inductive RefMark where
  | lref
  | rref
  deriving DecidableEq, Repr

/-- Reference collapsing (comment of `rc_fun`, lines 142-147):
`& &`, `&& &` and `& &&` give `&`; only `&& &&` gives `&&`. -/
def collapse : RefMark → RefMark → RefMark
  | .lref, .lref => .lref
  | .rref, .lref => .lref
  | .lref, .rref => .lref
  | .rref, .rref => .rref

/-- A type over the object (non-reference) types `α`: either a plain object
type `X`, or `X&` / `X&&`. -/
inductive Ty (α : Type) where
  | plain (X : α)
  | ref (m : RefMark) (X : α)
  deriving DecidableEq, Repr

/-- The member `std::remove_reference<T>::type`. -/
def remove_reference {α : Type} : Ty α → α
  | .plain X => X
  | .ref _ X => X

/-- The type written `T m` (`T&` or `T&&`) for a type `T` that may itself
be a reference: a reference to a reference collapses. -/
def Ty.addRef {α : Type} : Ty α → RefMark → Ty α
  | .plain X, m => .ref m X
  | .ref k X, m => .ref (collapse k m) X

/-- Value category of a cast or call expression whose target type is the
given one: an lvalue for `X&`, an rvalue for `X&&` and for a plain `X`. -/
def Ty.category {α : Type} : Ty α → Cat
  | .ref .lref _ => .persistent
  | .ref .rref _ => .disposable
  | .plain _ => .disposable

/-- Special type deduction for a parameter `T&& t` (`deduction`, lines
151-165): an lvalue of type `X` deduces `T = X&`, an rvalue of type `X`
deduces `T = X`. -/
def deduction {α : Type} (c : Cat) (X : α) : Ty α :=
  match c with
  | .persistent => .ref .lref X
  | .disposable => .plain X

/-- Whether a reference parameter of the given type binds to an argument of
the given category: `X&` binds lvalues only, `X&&` binds rvalues only, and a
by-value parameter accepts both. -/
def refBinds {α : Type} : Ty α → Cat → Bool
  | .ref .lref _, .persistent => true
  | .ref .lref _, .disposable => false
  | .ref .rref _, .persistent => false
  | .ref .rref _, .disposable => true
  | .plain _, _ => true

/-! ## Objects, storage and program state -/

/-- The object types occurring in the program: `int`, `std::string` and the
array type `const char[n]` of a string literal. -/
inductive ObjTy where
  | int
  | string
  | charArray (n : Nat)
  deriving DecidableEq, Repr

/-- Values held by objects: an `int` (the program does no arithmetic, so
the width of the machine integer plays no part), the text of a
`std::string`, and the text of a literal character array. -/
inductive Val where
  | int (n : Int)
  | str (s : String)
  | chars (s : String)
  deriving DecidableEq, Repr

/-- The object type of a value; a literal array has one more element than
its text, the terminating zero. -/
def Val.ty : Val → ObjTy
  | .int _ => .int
  | .str _ => .string
  | .chars s => .charArray (s.utf8ByteSize + 1)

/-- What `std::cout << v` writes with the default stream flags: a decimal
numeral for an `int`, the characters of a `std::string`, and for a character
array (which decays to `const char*`) the characters before the first zero. -/
def Val.render : Val → String
  | .int n => toString n
  | .str s => s
  | .chars s => String.mk (s.data.takeWhile (fun c => c != Char.ofNat 0))

/-- Where an object lives: an automatic object (a local variable or a
materialised temporary) at an index of the storage, or the static array of
a string literal. -/
inductive Addr where
  | auto (i : Nat)
  | literal (s : String)
  deriving DecidableEq, Repr

/-- Program state: the automatic objects alive, and standard output. -/
structure State where
  mem : List Val
  out : String
  deriving DecidableEq, Repr

/-- The state in which `main` starts. -/
def State.init : State := ⟨[], ""⟩

/-- Reads the object at an address; `none` when no object is alive there. -/
def State.read (σ : State) : Addr → Option Val
  | .auto i => σ.mem[i]?
  | .literal s => some (.chars s)

/-- Writes a value to the automatic object at an address; `none` when no
object is alive there, or when the object is a (constant) literal array. -/
def State.write (σ : State) : Addr → Val → Option State
  | .auto i, v => if i < σ.mem.length then some { σ with mem := σ.mem.set i v } else none
  | .literal _, _ => none

/-- A reference expression: the object it denotes and its value category. -/
structure Ref where
  addr : Addr
  cat : Cat
  deriving DecidableEq, Repr

/-- The id-expression naming a variable or parameter bound to the object at
`a`: always an lvalue, whatever the declared type of the parameter. -/
def named (a : Addr) : Ref := ⟨a, .persistent⟩

/-! ## The sink, the forwarder and the wrappers -/

/-- The sink `f(const T1& t1, const T2& t2)` (lines 26-29): both parameters
bind to either category; it writes the first value, a space, the second
value and a line end. -/
def f (t1 t2 : Ref) (σ : State) : Option State :=
  match σ.read t1.addr, σ.read t2.addr with
  | some v1, some v2 =>
      some { σ with out := σ.out ++ v1.render ++ " " ++ v2.render ++ "\n" }
  | _, _ => none

/-- The expression `static_cast<T&&>(t)`: it denotes the object `t` denotes,
with the category of the collapsed target type `T&&`. -/
def static_cast_fwd {α : Type} (T : Ty α) (t : Addr) : Ref :=
  ⟨t, (T.addRef .rref).category⟩

/-- First overload of `my_forward` (lines 173-176), parameter
`typename std::remove_reference<T>::type& t`. -/
def my_forward_lvalue {α : Type} (T : Ty α) (t : Addr) (σ : State) : Ref × State :=
  (static_cast_fwd T t, σ)

/-- Second overload of `my_forward` (lines 178-181), parameter
`typename std::remove_reference<T>::type&& t`. -/
def my_forward_rvalue {α : Type} (T : Ty α) (t : Addr) (σ : State) : Ref × State :=
  (static_cast_fwd T t, σ)

/-- The two overloads of a forwarder. -/
inductive Overload where
  | lvalueOverload
  | rvalueOverload
  deriving DecidableEq, Repr

/-- Overload resolution of `my_forward<T>(e)`: `T` is given explicitly, so
only the argument decides.  An lvalue cannot bind to the `&&` parameter of
the second overload, so the first is chosen; for an rvalue the second
overload is chosen. -/
def selectOverload (e : Ref) : Overload :=
  match e.cat with
  | .persistent => .lvalueOverload
  | .disposable => .rvalueOverload

/-- The call `my_forward<T>(e)`. -/
def my_forward {α : Type} (T : Ty α) (e : Ref) (σ : State) : Ref × State :=
  match selectOverload e with
  | .lvalueOverload => my_forward_lvalue T e.addr σ
  | .rvalueOverload => my_forward_rvalue T e.addr σ

/-- The wrapper `w5(T1&& t1, T2&& t2)` (lines 183-187), given the deduced
`T1`, `T2` and the objects its two parameters are bound to. -/
def w5 {α : Type} (T1 T2 : Ty α) (t1 t2 : Addr) (σ : State) : Option State :=
  let (r1, σ1) := my_forward T1 (named t1) σ
  let (r2, σ2) := my_forward T2 (named t2) σ1
  f r1 r2 σ2

/-- The first overload of the library forwarder `std::forward` of
`<utility>`, which `w6` calls; the library is not part of the repository, so
this follows its declaration in the language standard:
`template<class T> T&& forward(remove_reference_t<T>& t) noexcept`,
returning `static_cast<T&&>(t)`. -/
def std_forward_lvalue {α : Type} (T : Ty α) (t : Addr) (σ : State) : Option (Ref × State) :=
  some (static_cast_fwd T t, σ)

/-- The second overload of the library forwarder,
`template<class T> T&& forward(remove_reference_t<T>&& t) noexcept`: the
standard makes the program ill-formed when `T` is an lvalue reference type
(a `static_assert` in the library); otherwise it returns
`static_cast<T&&>(t)`.  `none` stands for the rejected program. -/
def std_forward_rvalue {α : Type} (T : Ty α) (t : Addr) (σ : State) : Option (Ref × State) :=
  match T with
  | .ref .lref _ => none
  | .ref .rref _ => some (static_cast_fwd T t, σ)
  | .plain _ => some (static_cast_fwd T t, σ)

/-- The call `std::forward<T>(e)`, resolved like `my_forward<T>(e)`. -/
def std_forward {α : Type} (T : Ty α) (e : Ref) (σ : State) : Option (Ref × State) :=
  match selectOverload e with
  | .lvalueOverload => std_forward_lvalue T e.addr σ
  | .rvalueOverload => std_forward_rvalue T e.addr σ

/-- The wrapper `w6(T1&& t1, T2&& t2)` (lines 189-193). -/
def w6 {α : Type} (T1 T2 : Ty α) (t1 t2 : Addr) (σ : State) : Option State :=
  match std_forward T1 (named t1) σ with
  | none => none
  | some (r1, σ1) =>
    match std_forward T2 (named t2) σ1 with
    | none => none
    | some (r2, σ2) => f r1 r2 σ2

/-! ## Call sites and the driver -/

/-- Argument expressions at a call site: `var i` is the name of the
automatic variable at index `i`, an lvalue; `temp v` is a prvalue with the
given value, such as the literal `10`, for which a temporary is materialised
when a reference binds to it; `strLit s` is a string literal, an lvalue that
denotes its static array. -/
inductive Expr where
  | var (i : Nat)
  | temp (v : Val)
  | strLit (s : String)
  deriving DecidableEq, Repr

/-- An evaluated argument: declared type, value category, and the object a
reference parameter binds to. -/
structure Arg where
  ty : ObjTy
  cat : Cat
  addr : Addr
  deriving DecidableEq, Repr

/-- Evaluates an argument expression for binding to a reference parameter.
Naming a variable that is not alive has no meaning (`none`). -/
def evalArg (e : Expr) (σ : State) : Option (Arg × State) :=
  match e with
  | .var i =>
    match σ.mem[i]? with
    | some v => some (⟨v.ty, .persistent, .auto i⟩, σ)
    | none => none
  | .temp v =>
    some (⟨v.ty, .disposable, .auto σ.mem.length⟩, { σ with mem := σ.mem ++ [v] })
  | .strLit s =>
    some (⟨(Val.chars s).ty, .persistent, .literal s⟩, σ)

/-- The instantiation of a wrapper `w(T1&& t1, T2&& t2)` for deduced types. -/
abbrev Wrapper := Ty ObjTy → Ty ObjTy → Addr → Addr → State → Option State

/-- The full-expression statement `w(e1, e2);` for a wrapper declared
`template <typename T1, typename T2> void w(T1&& t1, T2&& t2)`: the
arguments are evaluated, `T1` and `T2` are deduced from each argument on its
own, each parameter of type `T&&` must bind to its argument, the body runs,
and the temporaries of the statement are destroyed. -/
def callWrapper (w : Wrapper) (e1 e2 : Expr) (σ : State) : Option State :=
  match evalArg e1 σ with
  | none => none
  | some (a1, σ1) =>
    match evalArg e2 σ1 with
    | none => none
    | some (a2, σ2) =>
      let T1 := deduction a1.cat a1.ty
      let T2 := deduction a2.cat a2.ty
      if refBinds (T1.addRef .rref) a1.cat && refBinds (T2.addRef .rref) a2.cat then
        match w T1 T2 a1.addr a2.addr σ2 with
        | none => none
        | some σ3 => some { σ3 with mem := σ3.mem.take σ.mem.length }
      else none

/-- The declaration of a local variable initialised with `v`; gives its index. -/
def declare (v : Val) (σ : State) : Nat × State :=
  (σ.mem.length, { σ with mem := σ.mem ++ [v] })

/-- The literal `10`, `100`, ...: a prvalue of type `int`. -/
def intLit (n : Int) : Expr := .temp (.int n)

/-- The driver `main` (lines 198-252): exit code and final state. -/
def main (σ0 : State) : Option (Int × State) :=
  let (vv, σ1) := declare (.int 100) σ0
  let (ss, σ2) := declare (.str "ala") σ1
  match callWrapper w5 (.var vv) (.var ss) σ2 with
  | none => none
  | some σ3 =>
  match callWrapper w5 (intLit 10) (.strLit "ala") σ3 with
  | none => none
  | some σ4 =>
  match callWrapper w6 (.var vv) (.var ss) σ4 with
  | none => none
  | some σ5 =>
  match callWrapper w6 (intLit 10) (.strLit "ala") σ5 with
  | none => none
  | some σ6 => some (0, { σ6 with mem := σ6.mem.take σ0.mem.length })

/-! ## Auxiliary facts -/

theorem my_forward_eq {α : Type} (T : Ty α) (e : Ref) (σ : State) :
    my_forward T e σ = (⟨e.addr, (T.addRef .rref).category⟩, σ) := by
  obtain ⟨a, c⟩ := e
  cases c <;> rfl

theorem category_deduction {α : Type} (c : Cat) (X : α) :
    ((deduction c X).addRef .rref).category = c := by
  cases c <;> rfl

theorem w5_eq {α : Type} (T1 T2 : Ty α) (t1 t2 : Addr) (σ : State) :
    w5 T1 T2 t1 t2 σ
      = f ⟨t1, (T1.addRef .rref).category⟩ ⟨t2, (T2.addRef .rref).category⟩ σ := by
  simp [w5, my_forward_eq, named]

theorem std_forward_named {α : Type} (T : Ty α) (t : Addr) (σ : State) :
    std_forward T (named t) σ = some (my_forward T (named t) σ) := rfl

theorem w6_eq_w5 {α : Type} (T1 T2 : Ty α) (t1 t2 : Addr) (σ : State) :
    w6 T1 T2 t1 t2 σ = w5 T1 T2 t1 t2 σ := by
  simp [w6, w5, std_forward_named]

theorem binds_deduction {α : Type} (c : Cat) (X : α) :
    refBinds ((deduction c X).addRef .rref) c = true := by
  cases c <;> rfl

theorem f_eq (r1 r2 : Ref) (σ : State) (v1 v2 : Val)
    (h1 : σ.read r1.addr = some v1) (h2 : σ.read r2.addr = some v2) :
    f r1 r2 σ = some { σ with out := σ.out ++ v1.render ++ " " ++ v2.render ++ "\n" } := by
  simp [f, h1, h2]

theorem getElem?_lt {β : Type} (l : List β) (i : Nat) (v : β) (h : l[i]? = some v) :
    i < l.length := by
  by_contra hc
  rw [List.getElem?_eq_none (Nat.le_of_not_lt hc)] at h
  cases h

theorem call_var_var (σ : State) (i j : Nat) (v1 v2 : Val)
    (h1 : σ.mem[i]? = some v1) (h2 : σ.mem[j]? = some v2) :
    callWrapper w5 (.var i) (.var j) σ
      = some { σ with out := σ.out ++ v1.render ++ " " ++ v2.render ++ "\n" } := by
  have e : f ⟨.auto i, .persistent⟩ ⟨.auto j, .persistent⟩ σ = _ :=
    f_eq ⟨.auto i, .persistent⟩ ⟨.auto j, .persistent⟩ σ v1 v2 h1 h2
  simp [callWrapper, evalArg, h1, h2, w5_eq, deduction, Ty.addRef, collapse, Ty.category,
    refBinds, e]

theorem call_var_temp (σ : State) (i : Nat) (v1 v2 : Val)
    (h1 : σ.mem[i]? = some v1) :
    callWrapper w5 (.var i) (.temp v2) σ
      = some { σ with out := σ.out ++ v1.render ++ " " ++ v2.render ++ "\n" } := by
  have hi := getElem?_lt _ _ _ h1
  have e := f_eq ⟨.auto i, .persistent⟩ ⟨.auto σ.mem.length, .disposable⟩
    { σ with mem := σ.mem ++ [v2] } v1 v2
    (by simp [State.read, List.getElem?_append_left hi, h1]) (by simp [State.read])
  simp [callWrapper, evalArg, h1, w5_eq, deduction, Ty.addRef, collapse, Ty.category,
    refBinds, e]

theorem call_temp_var (σ : State) (j : Nat) (v1 v2 : Val)
    (h2 : σ.mem[j]? = some v2) :
    callWrapper w5 (.temp v1) (.var j) σ
      = some { σ with out := σ.out ++ v1.render ++ " " ++ v2.render ++ "\n" } := by
  have hj := getElem?_lt _ _ _ h2
  have h2' : (σ.mem ++ [v1])[j]? = some v2 := by
    rw [List.getElem?_append_left hj, h2]
  have e := f_eq ⟨.auto σ.mem.length, .disposable⟩ ⟨.auto j, .persistent⟩
    { σ with mem := σ.mem ++ [v1] } v1 v2
    (by simp [State.read]) (by simp [State.read, h2'])
  simp [callWrapper, evalArg, h2', w5_eq, deduction, Ty.addRef, collapse, Ty.category,
    refBinds, e]

theorem call_temp_temp (σ : State) (v1 v2 : Val) :
    callWrapper w5 (.temp v1) (.temp v2) σ
      = some { σ with out := σ.out ++ v1.render ++ " " ++ v2.render ++ "\n" } := by
  have e := f_eq ⟨.auto σ.mem.length, .disposable⟩ ⟨.auto (σ.mem.length + 1), .disposable⟩
    { σ with mem := σ.mem ++ [v1, v2] } v1 v2
    (by
      show (σ.mem ++ [v1, v2])[σ.mem.length]? = some v1
      rw [List.getElem?_append_right (Nat.le_refl _)]
      simp)
    (by
      show (σ.mem ++ [v1, v2])[σ.mem.length + 1]? = some v2
      rw [List.getElem?_append_right (Nat.le_succ _)]
      simp)
  simp [callWrapper, evalArg, w5_eq, deduction, Ty.addRef, collapse, Ty.category,
    refBinds, e]

theorem write_read (σ σ' : State) (a : Addr) (v : Val) (h : σ.write a v = some σ') :
    σ'.read a = some v := by
  cases a with
  | auto i =>
    simp only [State.write] at h
    split at h
    · cases h
      simp [State.read, *]
    · cases h
  | literal s => cases h

theorem call_temp_lit (σ : State) (v1 : Val) (s : String) :
    callWrapper w5 (.temp v1) (.strLit s) σ
      = some { σ with out := σ.out ++ v1.render ++ " " ++ (Val.chars s).render ++ "\n" } := by
  have e := f_eq ⟨.auto σ.mem.length, .disposable⟩ ⟨.literal s, .persistent⟩
    { σ with mem := σ.mem ++ [v1] } v1 (.chars s)
    (by simp [State.read]) (by simp [State.read])
  simp [callWrapper, evalArg, w5_eq, deduction, Ty.addRef, collapse, Ty.category,
    refBinds, e]

theorem call_var_lit (σ : State) (i : Nat) (v1 : Val) (s : String)
    (h1 : σ.mem[i]? = some v1) :
    callWrapper w5 (.var i) (.strLit s) σ
      = some { σ with out := σ.out ++ v1.render ++ " " ++ (Val.chars s).render ++ "\n" } := by
  have e := f_eq ⟨.auto i, .persistent⟩ ⟨.literal s, .persistent⟩ σ v1 (.chars s)
    h1 (by simp [State.read])
  simp [callWrapper, evalArg, h1, w5_eq, deduction, Ty.addRef, collapse, Ty.category,
    refBinds, e]

theorem callWrapper_w6 (e1 e2 : Expr) (σ : State) :
    callWrapper w6 e1 e2 σ = callWrapper w5 e1 e2 σ := by
  have h : (w6 : Wrapper) = w5 := by
    funext T1 T2 t1 t2 σ
    exact w6_eq_w5 T1 T2 t1 t2 σ
  rw [h]

/-! ## The claims -/

/-- C1: category preservation of the forwarding wrapper.  For every argument
type `X` and call-site category `c`, the tag deduced for `w5` is `X&` for a
persistent argument and plain `X` for a disposable one, and the parameter
`T&&` binds to the argument; the parameter named inside `w5` is an lvalue
whatever `c` is; `my_forward<T>` applied to it
returns a reference to the same object whose category, that of the collapsed
type `T&&`, is `c`; so `w5` hands the sink references of the call-site
categories. -/
theorem w5_preserves_category {α : Type} (X X' : α) (c c' : Cat) (t t' : Addr) (σ : State) :
    deduction .persistent X = .ref .lref X ∧
    deduction .disposable X = .plain X ∧
    (named t).cat = .persistent ∧
    refBinds ((deduction c X).addRef .rref) c = true ∧
    ((deduction c X).addRef .rref).category = c ∧
    my_forward (deduction c X) (named t) σ = (⟨t, c⟩, σ) ∧
    w5 (deduction c X) (deduction c' X') t t' σ = f ⟨t, c⟩ ⟨t', c'⟩ σ := by
  refine ⟨rfl, rfl, rfl, binds_deduction c X, category_deduction c X, ?_, ?_⟩
  · rw [my_forward_eq, category_deduction]; rfl
  · rw [w5_eq, category_deduction, category_deduction]

/-- C2: the reference collapsing table.  The collapsed marker is `&&` exactly
when both markers are `&&`; the three other combinations give `&`; collapsing
is commutative and `&` is absorbing on either side; and this is the marker of
the type obtained by adding a reference to a reference type. -/
theorem collapse_table {α : Type} (outer inner : RefMark) (X : α) :
    (collapse outer inner = .rref ↔ outer = .rref ∧ inner = .rref) ∧
    collapse .lref .lref = .lref ∧
    collapse .rref .lref = .lref ∧
    collapse .lref .rref = .lref ∧
    collapse .rref .rref = .rref ∧
    collapse outer inner = collapse inner outer ∧
    collapse .lref inner = .lref ∧
    collapse outer .lref = .lref ∧
    (Ty.ref outer X).addRef inner = .ref (collapse outer inner) X := by
  cases outer <;> cases inner <;> simp [collapse, Ty.addRef]

/-- C3: the forwarder is a pure alias.  In every state and for every
argument, `my_forward<T>` returns a reference to the object its argument
denotes and gives back the state it received; for a pair of persistent
arguments `w5` hands the sink references to the caller's two objects, and a
write through either forwarded reference is read back through the original
variable. -/
theorem my_forward_pure_alias {α : Type} (T : Ty α) (e : Ref) (X1 X2 : α)
    (t1 t2 : Addr) (σ : State) :
    (my_forward T e σ).1.addr = e.addr ∧
    (my_forward T e σ).2 = σ ∧
    w5 (deduction .persistent X1) (deduction .persistent X2) t1 t2 σ
      = f ⟨t1, .persistent⟩ ⟨t2, .persistent⟩ σ ∧
    (∀ (v : Val) (σ' : State),
      σ.write (my_forward (deduction .persistent X1) (named t1) σ).1.addr v = some σ' →
        σ'.read t1 = some v) ∧
    (∀ (v : Val) (σ' : State),
      σ.write (my_forward (deduction .persistent X2) (named t2)
        (my_forward (deduction .persistent X1) (named t1) σ).2).1.addr v = some σ' →
        σ'.read t2 = some v) := by
  refine ⟨by rw [my_forward_eq], by rw [my_forward_eq], ?_, ?_, ?_⟩
  · rw [w5_eq]; rfl
  · intro v σ' h
    rw [my_forward_eq] at h
    exact write_read σ σ' t1 v h
  · intro v σ' h
    rw [my_forward_eq, my_forward_eq] at h
    exact write_read σ σ' t2 v h

/-- Witness of C3: writing 7 through the forwarded reference to the first of
two variables is seen through that variable. -/
theorem my_forward_pure_alias_witness :
    State.write ⟨[.int 100, .str "ala"], ""⟩ (.auto 0) (.int 7)
      = some ⟨[.int 7, .str "ala"], ""⟩ ∧
    State.read ⟨[.int 7, .str "ala"], ""⟩ (.auto 0) = some (.int 7) :=
  ⟨rfl, (@my_forward_pure_alias ObjTy (.plain .int) (named (.auto 0)) .int .string
    (.auto 0) (.auto 1) ⟨[.int 100, .str "ala"], ""⟩).2.2.2.1 (.int 7)
      ⟨[.int 7, .str "ala"], ""⟩ rfl⟩

/-- C4, as the claim states Scenario B, fails: in the statement
`w5(10, "ala");` of `main` the string literal is an lvalue of type
`const char[4]`, not a temporary, so `T2` is deduced as a reference type and
the second argument is forwarded as a persistent reference. -/
theorem scenarioB_text_forwarded_persistent :
    evalArg (.strLit "ala") ⟨[.int 100, .str "ala", .int 10], "100 ala\n"⟩
      = some (⟨.charArray 4, .persistent, .literal "ala"⟩,
          ⟨[.int 100, .str "ala", .int 10], "100 ala\n"⟩) ∧
    deduction Cat.persistent (ObjTy.charArray 4) = .ref .lref (.charArray 4) ∧
    deduction Cat.persistent (ObjTy.charArray 4) ≠ .plain (.charArray 4) ∧
    (my_forward (deduction Cat.persistent (ObjTy.charArray 4)) (named (.literal "ala"))
      ⟨[.int 100, .str "ala", .int 10], "100 ala\n"⟩).1.cat = .persistent ∧
    (my_forward (deduction Cat.persistent (ObjTy.charArray 4)) (named (.literal "ala"))
      ⟨[.int 100, .str "ala", .int 10], "100 ala\n"⟩).1.cat ≠ .disposable := by
  decide

/-- C4, amended: every temporary argument of `w5`, in either position and
whatever the other argument is, gets a non-reference tag and is forwarded as
a disposable reference; a call with two temporaries writes the line of their
two values.  In Scenario B, `w5(10, "ala")`, the literal `10` is
a temporary, `T1` is `int` and the first argument is forwarded disposable;
the string literal is an lvalue of type `const char[4]`, `T2` is a reference
type and the second argument is forwarded persistent; the line written is
`10 ala`. -/
theorem temporaries_forwarded_disposable {α : Type} (X X' : α) (c' : Cat) (t t' : Addr)
    (σ : State) (v v' : Val) :
    deduction .disposable X = .plain X ∧
    my_forward (deduction .disposable X) (named t) σ = (⟨t, .disposable⟩, σ) ∧
    w5 (deduction .disposable X) (deduction c' X') t t' σ
      = f ⟨t, .disposable⟩ ⟨t', c'⟩ σ ∧
    w5 (deduction c' X') (deduction .disposable X) t' t σ
      = f ⟨t', c'⟩ ⟨t, .disposable⟩ σ ∧
    evalArg (intLit 10) σ
      = some (⟨.int, .disposable, .auto σ.mem.length⟩, { σ with mem := σ.mem ++ [.int 10] }) ∧
    evalArg (.strLit "ala") σ = some (⟨.charArray 4, .persistent, .literal "ala"⟩, σ) ∧
    deduction Cat.disposable ObjTy.int = .plain .int ∧
    deduction Cat.persistent (ObjTy.charArray 4) = .ref .lref (.charArray 4) ∧
    w5 (deduction Cat.disposable ObjTy.int) (deduction Cat.persistent (ObjTy.charArray 4))
        (.auto σ.mem.length) (.literal "ala") { σ with mem := σ.mem ++ [.int 10] }
      = f ⟨.auto σ.mem.length, .disposable⟩ ⟨.literal "ala", .persistent⟩
          { σ with mem := σ.mem ++ [.int 10] } ∧
    callWrapper w5 (.temp v) (.temp v') σ
      = some { σ with out := σ.out ++ v.render ++ " " ++ v'.render ++ "\n" } ∧
    callWrapper w5 (intLit 10) (.strLit "ala") σ = some { σ with out := σ.out ++ "10 ala\n" } := by
  refine ⟨rfl, ?_, ?_, ?_, rfl, rfl, rfl, rfl, ?_, call_temp_temp σ v v', ?_⟩
  · rw [my_forward_eq]; rfl
  · rw [w5_eq, category_deduction]; rfl
  · rw [w5_eq, category_deduction]; rfl
  · rw [w5_eq]; rfl
  · rw [intLit, call_temp_lit]
    have h : Val.render (.int 10) = "10" := by decide
    have h' : Val.render (.chars "ala") = "ala" := by decide
    rw [h, h']
    simp [String.append_assoc]

/-- C5: idempotence of forwarding.  For a tag `T` produced by the deduction
rule, forwarding the result of `my_forward<T>` once more gives the same
reference in the same state: the same category and the same object. -/
theorem my_forward_idempotent {α : Type} (c : Cat) (X : α) (t : Ref) (σ : State) :
    my_forward (deduction c X) (my_forward (deduction c X) t σ).1
        (my_forward (deduction c X) t σ).2
      = my_forward (deduction c X) t σ ∧
    (my_forward (deduction c X) (my_forward (deduction c X) t σ).1
        (my_forward (deduction c X) t σ).2).1.cat
      = (my_forward (deduction c X) t σ).1.cat ∧
    (my_forward (deduction c X) (my_forward (deduction c X) t σ).1
        (my_forward (deduction c X) t σ).2).1.addr = t.addr ∧
    (my_forward (deduction c X) t σ).1.addr = t.addr := by
  simp [my_forward_eq]

/-- C6: output of the entry point.  From the initial state `main` declares
`vv = 100` and `ss = "ala"`, performs the four calls `w5(vv, ss)`,
`w5(10, "ala")`, `w6(vv, ss)`, `w6(10, "ala")` in that order, each writing
one line, so that standard output is the four lines `100 ala`, `10 ala`,
`100 ala`, `10 ala`, and returns 0. -/
theorem main_output :
    main State.init = some (0, ⟨[], "100 ala\n10 ala\n100 ala\n10 ala\n"⟩) ∧
    declare (.int 100) State.init = (0, ⟨[.int 100], ""⟩) ∧
    declare (.str "ala") ⟨[.int 100], ""⟩ = (1, ⟨[.int 100, .str "ala"], ""⟩) ∧
    callWrapper w5 (.var 0) (.var 1) ⟨[.int 100, .str "ala"], ""⟩
      = some ⟨[.int 100, .str "ala"], "100 ala\n"⟩ ∧
    callWrapper w5 (intLit 10) (.strLit "ala") ⟨[.int 100, .str "ala"], "100 ala\n"⟩
      = some ⟨[.int 100, .str "ala"], "100 ala\n10 ala\n"⟩ ∧
    callWrapper w6 (.var 0) (.var 1) ⟨[.int 100, .str "ala"], "100 ala\n10 ala\n"⟩
      = some ⟨[.int 100, .str "ala"], "100 ala\n10 ala\n100 ala\n"⟩ ∧
    callWrapper w6 (intLit 10) (.strLit "ala")
        ⟨[.int 100, .str "ala"], "100 ala\n10 ala\n100 ala\n"⟩
      = some ⟨[.int 100, .str "ala"], "100 ala\n10 ala\n100 ala\n10 ala\n"⟩ := by
  decide

/-- C7: Scenario A for every input of its kind.  When the variables at `i`
and `j` hold the integer `n` and the text `s`, the calls `w5(v, s)` and
`w6(v, s)` succeed, append the one line made of the numeral of `n`, a space,
`s` and a line end, and change nothing else: the storage, hence both
variables and their values, is as before.  With `vv = 100` and `ss = "ala"`
the line is `100 ala` and the variables still hold 100 and `ala`. -/
theorem scenarioA_named_arguments (σ : State) (i j : Nat) (n : Int) (s : String)
    (hv : σ.mem[i]? = some (.int n)) (hs : σ.mem[j]? = some (.str s)) :
    callWrapper w5 (.var i) (.var j) σ
      = some { σ with out := σ.out ++ toString n ++ " " ++ s ++ "\n" } ∧
    callWrapper w6 (.var i) (.var j) σ
      = some { σ with out := σ.out ++ toString n ++ " " ++ s ++ "\n" } ∧
    callWrapper w5 (.var 0) (.var 1) ⟨[.int 100, .str "ala"], ""⟩
      = some ⟨[.int 100, .str "ala"], "100 ala\n"⟩ ∧
    callWrapper w6 (.var 0) (.var 1) ⟨[.int 100, .str "ala"], ""⟩
      = some ⟨[.int 100, .str "ala"], "100 ala\n"⟩ := by
  refine ⟨?_, ?_, by decide, by decide⟩
  · rw [call_var_var σ i j _ _ hv hs]; rfl
  · rw [callWrapper_w6, call_var_var σ i j _ _ hv hs]; rfl

/-- Witness of C7: two variables holding -5 and `kot`, after an unrelated
one, with earlier output present. -/
theorem scenarioA_named_arguments_witness :
    callWrapper w5 (.var 2) (.var 1) ⟨[.int 1, .str "kot", .int (-5)], "x\n"⟩
      = some ⟨[.int 1, .str "kot", .int (-5)], "x\n-5 kot\n"⟩ :=
  (scenarioA_named_arguments ⟨[.int 1, .str "kot", .int (-5)], "x\n"⟩ 2 1 (-5) "kot"
    rfl rfl).1.trans (by decide)

/-- C8, as the claim states its example, fails: the call `w5(vv, "ala")`
is not a call with one named and one temporary argument.  The string literal
is an lvalue of type `const char[4]`, so both arguments are persistent, `T2`
is a reference type and not a plain one, and `my_forward<T2>` hands the sink
a persistent reference. -/
theorem scenarioC_literal_example_is_persistent :
    evalArg (.var 0) ⟨[.int 100, .str "ala"], ""⟩
      = some (⟨.int, .persistent, .auto 0⟩, ⟨[.int 100, .str "ala"], ""⟩) ∧
    evalArg (.strLit "ala") ⟨[.int 100, .str "ala"], ""⟩
      = some (⟨.charArray 4, .persistent, .literal "ala"⟩, ⟨[.int 100, .str "ala"], ""⟩) ∧
    deduction Cat.persistent (ObjTy.charArray 4) = .ref .lref (.charArray 4) ∧
    deduction Cat.persistent (ObjTy.charArray 4) ≠ .plain (.charArray 4) ∧
    my_forward (deduction Cat.persistent (ObjTy.charArray 4)) (named (.literal "ala"))
        (my_forward (deduction Cat.persistent ObjTy.int) (named (.auto 0))
          ⟨[.int 100, .str "ala"], ""⟩).2
      = (⟨.literal "ala", .persistent⟩, ⟨[.int 100, .str "ala"], ""⟩) ∧
    (my_forward (deduction Cat.persistent (ObjTy.charArray 4)) (named (.literal "ala"))
        (my_forward (deduction Cat.persistent ObjTy.int) (named (.auto 0))
          ⟨[.int 100, .str "ala"], ""⟩).2).1.cat ≠ .disposable := by
  decide

/-- C8, amended: Scenario C, mixed categories.  For one named and one
temporary argument, in either position (as `w5(vv, 10)` or `w5(10, ss)`),
the two tags are deduced independently (`X&` for the named argument, plain
`X` for the temporary), each `T&&` parameter binds to its argument,
`my_forward` returns a persistent reference to the named argument's object
and a disposable reference to the temporary's object, in either order of
the two forwarding calls and leaving the state as it was, `w5` hands these
to the sink in the positions of the call, and the call succeeds and appends
the line made of the first value, a space, the second value and a line end,
leaving the storage as it was.  The call `w5(vv, "ala")` is not of this
kind: the string literal is an lvalue, its tag is a reference type and it is
forwarded as a persistent reference; that call too succeeds and writes its
pair. -/
theorem scenarioC_mixed_arguments {α : Type} (X1 X2 : α) (t1 t2 : Addr) (σ0 σ : State)
    (i : Nat) (v w : Val) (s : String) (h : σ.mem[i]? = some v) :
    deduction .persistent X1 = .ref .lref X1 ∧
    deduction .disposable X2 = .plain X2 ∧
    refBinds ((deduction .persistent X1).addRef .rref) .persistent = true ∧
    refBinds ((deduction .disposable X2).addRef .rref) .disposable = true ∧
    w5 (deduction .persistent X1) (deduction .disposable X2) t1 t2 σ0
      = f ⟨t1, .persistent⟩ ⟨t2, .disposable⟩ σ0 ∧
    w5 (deduction .disposable X2) (deduction .persistent X1) t2 t1 σ0
      = f ⟨t2, .disposable⟩ ⟨t1, .persistent⟩ σ0 ∧
    callWrapper w5 (.var i) (.temp w) σ
      = some { σ with out := σ.out ++ v.render ++ " " ++ w.render ++ "\n" } ∧
    callWrapper w5 (.temp w) (.var i) σ
      = some { σ with out := σ.out ++ w.render ++ " " ++ v.render ++ "\n" } ∧
    callWrapper w5 (.var i) (.strLit s) σ
      = some { σ with out := σ.out ++ v.render ++ " " ++ (Val.chars s).render ++ "\n" } ∧
    my_forward (deduction .persistent X1) (named t1) σ0 = (⟨t1, .persistent⟩, σ0) ∧
    my_forward (deduction .disposable X2) (named t2) σ0 = (⟨t2, .disposable⟩, σ0) ∧
    my_forward (deduction .disposable X2) (named t2)
        (my_forward (deduction .persistent X1) (named t1) σ0).2
      = (⟨t2, .disposable⟩, σ0) ∧
    my_forward (deduction .persistent X1) (named t1)
        (my_forward (deduction .disposable X2) (named t2) σ0).2
      = (⟨t1, .persistent⟩, σ0) ∧
    evalArg (.var i) σ = some (⟨v.ty, .persistent, .auto i⟩, σ) ∧
    evalArg (.temp w) σ
      = some (⟨w.ty, .disposable, .auto σ.mem.length⟩, { σ with mem := σ.mem ++ [w] }) ∧
    my_forward (deduction .persistent v.ty) (named (.auto i)) { σ with mem := σ.mem ++ [w] }
      = (⟨.auto i, .persistent⟩, { σ with mem := σ.mem ++ [w] }) ∧
    my_forward (deduction .disposable w.ty) (named (.auto σ.mem.length))
        { σ with mem := σ.mem ++ [w] }
      = (⟨.auto σ.mem.length, .disposable⟩, { σ with mem := σ.mem ++ [w] }) ∧
    evalArg (.strLit s) σ = some (⟨(Val.chars s).ty, .persistent, .literal s⟩, σ) ∧
    my_forward (deduction .persistent (Val.chars s).ty) (named (.literal s)) σ
      = (⟨.literal s, .persistent⟩, σ) := by
  refine ⟨rfl, rfl, rfl, rfl, ?_, ?_, call_var_temp σ i v w h, call_temp_var σ i w v h,
    call_var_lit σ i v s h, ?_, ?_, ?_, ?_, ?_, rfl, ?_, ?_, rfl, ?_⟩
  · rw [w5_eq]; rfl
  · rw [w5_eq]; rfl
  · rw [my_forward_eq]; rfl
  · rw [my_forward_eq]; rfl
  · rw [my_forward_eq, my_forward_eq]; rfl
  · rw [my_forward_eq, my_forward_eq]; rfl
  · simp [evalArg, h]
  · rw [my_forward_eq]; rfl
  · rw [my_forward_eq]; rfl
  · rw [my_forward_eq]; rfl

/-- Witness of C8: the calls `w5(10, ss)` and `w5(vv, 10)` in the state of
`main` after its two declarations, and the references `my_forward` returns
for the variable `vv` and for the temporary of `10` in the second call. -/
theorem scenarioC_mixed_arguments_witness :
    callWrapper w5 (intLit 10) (.var 1) ⟨[.int 100, .str "ala"], ""⟩
      = some ⟨[.int 100, .str "ala"], "10 ala\n"⟩ ∧
    callWrapper w5 (.var 0) (intLit 10) ⟨[.int 100, .str "ala"], ""⟩
      = some ⟨[.int 100, .str "ala"], "100 10\n"⟩ ∧
    my_forward (deduction Cat.persistent ObjTy.int) (named (.auto 0))
        ⟨[.int 100, .str "ala", .int 10], ""⟩
      = (⟨.auto 0, .persistent⟩, ⟨[.int 100, .str "ala", .int 10], ""⟩) ∧
    my_forward (deduction Cat.disposable ObjTy.int) (named (.auto 2))
        ⟨[.int 100, .str "ala", .int 10], ""⟩
      = (⟨.auto 2, .disposable⟩, ⟨[.int 100, .str "ala", .int 10], ""⟩) :=
  ⟨(@scenarioC_mixed_arguments ObjTy .string .int (.auto 1) (.auto 2)
      ⟨[.int 100, .str "ala", .int 10], ""⟩ ⟨[.int 100, .str "ala"], ""⟩ 1 (.str "ala")
      (.int 10) "ala" rfl).2.2.2.2.2.2.2.1.trans (by decide),
   (@scenarioC_mixed_arguments ObjTy .int .int (.auto 0) (.auto 2)
      ⟨[.int 100, .str "ala", .int 10], ""⟩ ⟨[.int 100, .str "ala"], ""⟩ 0 (.int 100)
      (.int 10) "ala" rfl).2.2.2.2.2.2.1.trans (by decide),
   (@scenarioC_mixed_arguments ObjTy .int .int (.auto 0) (.auto 2)
      ⟨[.int 100, .str "ala", .int 10], ""⟩ ⟨[.int 100, .str "ala"], ""⟩ 0 (.int 100)
      (.int 10) "ala" rfl).2.2.2.2.2.2.2.2.2.1,
   (@scenarioC_mixed_arguments ObjTy .int .int (.auto 0) (.auto 2)
      ⟨[.int 100, .str "ala", .int 10], ""⟩ ⟨[.int 100, .str "ala"], ""⟩ 0 (.int 100)
      (.int 10) "ala" rfl).2.2.2.2.2.2.2.2.2.2.1⟩

/-- C9, as stated for every argument, fails: with the tag `int&` produced by
the deduction rule and a temporary argument, the library forwarder rejects
the program while `my_forward` returns a persistent reference. -/
theorem std_forward_rejects_where_my_forward_accepts :
    std_forward (deduction Cat.persistent ObjTy.int) ⟨.auto 0, .disposable⟩ ⟨[.int 10], ""⟩
      = none ∧
    my_forward (deduction Cat.persistent ObjTy.int) ⟨.auto 0, .disposable⟩ ⟨[.int 10], ""⟩
      = (⟨.auto 0, .persistent⟩, ⟨[.int 10], ""⟩) ∧
    std_forward (deduction Cat.persistent ObjTy.int) ⟨.auto 0, .disposable⟩ ⟨[.int 10], ""⟩
      ≠ some (my_forward (deduction Cat.persistent ObjTy.int) ⟨.auto 0, .disposable⟩
          ⟨[.int 10], ""⟩) := by
  decide

/-- C9, amended: `my_forward<T>` and `std::forward<T>` agree, in the object,
the category and the state, for every tag `T` whenever the argument is an
lvalue, and for a non-reference tag also when it is an rvalue; they differ
only for `T = X&` with an rvalue argument, which the library rejects and
for which `my_forward` returns a persistent reference.  Inside
`w5` and `w6` the argument is a named parameter, so for all tags, objects and
states `w6` behaves as `w5`, and so does every call statement. -/
theorem my_forward_refines_std_forward {α : Type} (T T1 T2 : Ty α) (X : α) (c : Cat)
    (t t1 t2 : Addr) (e1 e2 : Expr) (σ σ' : State) :
    std_forward T ⟨t, .persistent⟩ σ = some (my_forward T ⟨t, .persistent⟩ σ) ∧
    std_forward (.plain X) ⟨t, c⟩ σ = some (my_forward (.plain X) ⟨t, c⟩ σ) ∧
    std_forward (.ref .rref X) ⟨t, c⟩ σ = some (my_forward (.ref .rref X) ⟨t, c⟩ σ) ∧
    std_forward (.ref .lref X) ⟨t, .disposable⟩ σ = none ∧
    my_forward (.ref .lref X) ⟨t, .disposable⟩ σ = (⟨t, .persistent⟩, σ) ∧
    std_forward T (named t) σ = some (my_forward T (named t) σ) ∧
    w6 T1 T2 t1 t2 σ = w5 T1 T2 t1 t2 σ ∧
    callWrapper w6 e1 e2 σ' = callWrapper w5 e1 e2 σ' := by
  refine ⟨rfl, ?_, ?_, rfl, rfl, rfl, w6_eq_w5 T1 T2 t1 t2 σ, callWrapper_w6 e1 e2 σ'⟩
  · cases c <;> rfl
  · cases c <;> rfl

/-- C10: the category returned by `my_forward<T>` depends on `T` alone.  The
two overloads return the same reference; the category is that of the
collapsed `T&&` whatever the category of the argument.  For `T = X&` both
overloads return a persistent reference, so a temporary argument, for which
the second overload is selected, comes back as a persistent reference to the
same object, with nothing rejecting the call; for `T = X` and `T = X&&` both
overloads return a disposable reference. -/
theorem my_forward_category_from_tag {α : Type} (T : Ty α) (X : α) (e : Ref) (c : Cat)
    (t : Addr) (σ : State) :
    my_forward_lvalue T t σ = my_forward_rvalue T t σ ∧
    (my_forward T e σ).1.cat = (T.addRef .rref).category ∧
    (my_forward T ⟨t, .persistent⟩ σ).1.cat = (my_forward T ⟨t, .disposable⟩ σ).1.cat ∧
    (my_forward_lvalue (.ref .lref X) t σ).1.cat = .persistent ∧
    (my_forward_rvalue (.ref .lref X) t σ).1.cat = .persistent ∧
    selectOverload ⟨t, .disposable⟩ = .rvalueOverload ∧
    my_forward (.ref .lref X) ⟨t, .disposable⟩ σ = (⟨t, .persistent⟩, σ) ∧
    (my_forward_lvalue (.plain X) t σ).1.cat = .disposable ∧
    (my_forward_rvalue (.plain X) t σ).1.cat = .disposable ∧
    (my_forward_lvalue (.ref .rref X) t σ).1.cat = .disposable ∧
    (my_forward_rvalue (.ref .rref X) t σ).1.cat = .disposable ∧
    (my_forward (.plain X) ⟨t, c⟩ σ).1.cat = .disposable ∧
    (my_forward (.ref .rref X) ⟨t, c⟩ σ).1.cat = .disposable := by
  refine ⟨rfl, by rw [my_forward_eq], by rw [my_forward_eq, my_forward_eq],
    rfl, rfl, rfl, rfl, rfl, rfl, rfl, rfl, ?_, ?_⟩
  · rw [my_forward_eq]; rfl
  · rw [my_forward_eq]; rfl

end PerfectForwarding
